import Mathlib

/-! Shallow embedding of `export.py`, a Prometheus exporter that polls Xiaomi
air purifiers over the MIoT protocol and republishes the readings as gauges.

The embedding mirrors the source file:
  * the static mapping table `MIOT_MAPPING` (lines 11-30);
  * the gauge registry (lines 33-43), modelled as a partial map from
    (metric name, device-name label) to the current numeric value;
  * the startup validation (lines 51-75), with `sys.exit(1)` after a
    diagnostic on standard error modelled by `StartupResult.exitErr`;
  * the polling loop body (lines 91-117): the `object is None` skip, the
    `get_properties_for_mapping` fetch, the status dict comprehension with
    its `prop.get("code") == 0` filter, the eleven gauge-setting
    conditionals, and the two `except` clauses.

Raw values reported by the device are booleans, integers or floats; floats
are modelled by rationals.  A fetch either returns a list of readings or
raises one of the two exception classes the loop catches
(`miio.exceptions.DeviceException`, `OSError`).
-/

namespace MiioExporter

/-- A raw property value as reported by the device: a boolean, an integer
or a float (modelled by a rational). -/
inductive Value where
  | vbool (b : Bool)
  | vint (n : Int)
  | vfloat (q : ℚ)
  deriving DecidableEq

/-- Python truthiness of a raw value, as used by `1 if status["power"] else 0`
(line 102): `False`, `0` and `0.0` are falsy, everything else is truthy. -/
def truthy : Value → Bool
  | .vbool b => b
  | .vint n => n != 0
  | .vfloat q => q != 0

/-- The number a gauge stores after `Gauge.set(v)` (prometheus_client applies
`float`): booleans become 1/0, integers and floats pass through. -/
def toNum : Value → ℚ
  | .vbool b => if b then 1 else 0
  | .vint n => n
  | .vfloat q => q

/-- One element of the list returned by `get_properties_for_mapping`:
a dict with the mapping key under `did`, an optional status code under
`code` (read with `.get`, so it may be absent), and the value. -/
structure Reading where
  did : String
  code : Option Int
  value : Value
  deriving DecidableEq

/-- The mapping table `MIOT_MAPPING` (lines 11-30): semantic property name to (siid, piid). -/
def MIOT_MAPPING : List (String × Nat × Nat) :=
  [("power", 2, 1), ("fault", 2, 2), ("mode", 2, 4),
   ("humidity", 3, 1), ("aqi", 3, 4), ("temperature", 3, 7),
   ("filter_life_remaining", 4, 1), ("filter_used_time", 4, 3),
   ("filter_left_time", 4, 4),
   ("fan_speed_rpm", 9, 1), ("favorite_level", 9, 11)]

/-- Line 99: the dict comprehension over `properties` keeping
entries whose optional `code` field equals 0, keyed by `did`.  A key is present iff some reading with status
code 0 carries it; the value is the one of the LAST such reading, because a
Python dict comprehension overwrites earlier insertions. -/
def status (properties : List Reading) : String → Option Value :=
  fun did =>
    (((properties.filter fun prop => prop.code == some 0).reverse.find?
        fun prop => prop.did == did).map fun prop => prop.value)

/-- The Metric Registry: for each (metric name, device-name label) the
current gauge value, `none` while the pair has never been set. -/
def Registry : Type := String → String → Option ℚ

/-- Model of `gauge.labels(name).set(v)`: overwrite one (metric, label) point. -/
def setPoint (r : Registry) (metric label : String) (v : ℚ) : Registry :=
  fun m l => if m = metric ∧ l = label then some v else r m l

/-- One `if key in status: gauge.labels(name).set(f(status[key]))` line. -/
def setIf (o : Option Value) (metric label : String) (f : Value → ℚ)
    (r : Registry) : Registry :=
  match o with
  | some v => setPoint r metric label (f v)
  | none => r

/-- Lines 102-112: the eleven gauge-setting conditionals, in source order.
Every gauge except `power` stores the raw value; `power` stores
`1 if status["power"] else 0`. -/
def setGauges (st : String → Option Value) (name : String) (r : Registry) :
    Registry :=
  let r := setIf (st "power") "mi_purifier_power" name
    (fun v => if truthy v then 1 else 0) r
  let r := setIf (st "mode") "mi_purifier_mode" name toNum r
  let r := setIf (st "aqi") "mi_purifier_aqi" name toNum r
  let r := setIf (st "temperature") "mi_purifier_temp" name toNum r
  let r := setIf (st "humidity") "mi_purifier_humidity" name toNum r
  let r := setIf (st "fault") "mi_purifier_fault" name toNum r
  let r := setIf (st "fan_speed_rpm") "mi_purifier_fan_speed_rpm" name toNum r
  let r := setIf (st "filter_life_remaining")
    "mi_purifier_filter_life_remaining_percent" name toNum r
  let r := setIf (st "filter_used_time") "mi_purifier_filter_used_time" name
    toNum r
  let r := setIf (st "filter_left_time") "mi_purifier_filter_left_time" name
    toNum r
  let r := setIf (st "favorite_level") "mi_purifier_favorite_level" name
    toNum r
  r

/-- The two exception classes the loop body can raise and catches
(lines 114-117): `miio.exceptions.DeviceException` and `OSError`. -/
inductive PyError where
  | deviceException (msg : String)
  | osError (msg : String)
  deriving DecidableEq

/-- One line printed by the `except` clauses of the loop body. -/
inductive LogEntry where
  | updateError (name msg : String)
  | osLog (name msg : String)
  deriving DecidableEq

/-- The logical device name a log line reports. -/
def LogEntry.deviceName : LogEntry → String
  | .updateError name _ => name
  | .osLog name _ => name

/-- Which log line each `except` clause prints (lines 114-117). -/
def errorLog (name : String) : PyError → LogEntry
  | .deviceException msg => .updateError name msg
  | .osError msg => .osLog name msg

/-- A device descriptor as seen by the loop: its logical name and whether
`p["object"]` holds a live connection handle (it is `None`, or the key is
absent, when initialization failed or the entry was skipped). -/
structure Purifier where
  name : String
  hasObject : Bool
  deriving DecidableEq

/-- Lines 92-117, the loop body for one device: skip when the handle is
`None`; otherwise run the `try` block on the fetch outcome, catching
`DeviceException` and `OSError`.  Returns the updated registry and the log
lines printed for this device. -/
def processDevice (p : Purifier) (fetch : Except PyError (List Reading))
    (r : Registry) : Registry × List LogEntry :=
  if p.hasObject then
    match fetch with
    | .ok properties => (setGauges (status properties) p.name r, [])
    | .error e => (r, [errorLog p.name e])
  else (r, [])

/-- One full poll cycle (the `for p in purifiers` loop, lines 92-117):
each device is paired with the outcome its fetch would have this cycle. -/
def runCycle : List (Purifier × Except PyError (List Reading)) → Registry →
    Registry × List LogEntry
  | [], r => (r, [])
  | (p, f) :: rest, r =>
    let step := processDevice p f r
    let recur := runCycle rest step.1
    (recur.1, step.2 ++ recur.2)

/-- A JSON value as produced by `json.load`. -/
inductive Json where
  | null
  | bool (b : Bool)
  | num (n : Int)
  | str (s : String)
  | arr (items : List Json)
  | obj (fields : List (String × Json))

/-- Python `dict.get` on a JSON object (later duplicate keys win, as in
`json.load`); `none` for a missing key. -/
def Json.get (j : Json) (key : String) : Option Json :=
  match j with
  | .obj fields => (fields.reverse.find? fun f => f.1 == key).map fun f => f.2
  | _ => none

/-- Python `int(s)` on a string: optional surrounding whitespace, an
optional sign, then at least one digit; `none` models `ValueError`. -/
def pyInt (s : String) : Option Int :=
  let t :=
    ((s.data.dropWhile Char.isWhitespace).reverse.dropWhile
      Char.isWhitespace).reverse
  match t with
  | [] => none
  | c :: rest =>
    let neg : Bool := c = '-'
    let digits := if c = '-' ∨ c = '+' then rest else c :: rest
    if digits ≠ [] ∧ digits.all Char.isDigit then
      let n : Int := digits.foldl (fun acc d => acc * 10 + (d.toNat - 48)) 0
      some (if neg then -n else n)
    else none

/-- Line 72: `"purifiers" not in config or not isinstance(config.get(
"purifiers"), list) or not config["purifiers"]`. -/
def purifiersInvalid (config : Json) : Bool :=
  match config.get "purifiers" with
  | some (Json.arr items) => items.isEmpty
  | _ => true

/-- Outcome of the startup phase (lines 51-75).  `exitErr msg` models
`exit_with_error`: `msg` printed to standard error, then `sys.exit(1)`;
`crashed` models an uncaught exception (traceback, exit status 1);
`started` means control reaches the server start and the polling loop. -/
inductive StartupResult where
  | exitErr (msg : String)
  | crashed (msg : String)
  | started (port : Json) (interval : Json) (purifiers : List Json)

/-- Lines 51-75: argument check, config load (`readConfig` models
`open` + `json.load`, its `.error` case the caught `FileNotFoundError` /
`json.JSONDecodeError`), port/interval defaults, CLI port override, and
the purifiers-list check.  `config.get` on a non-object raises
`AttributeError` at line 62, which nothing catches. -/
def startup (argv : List String) (readConfig : String → Except String Json) :
    StartupResult :=
  match argv[1]? with
  | none => .exitErr "JSON config file must be passed as the first argument"
  | some cfgPath =>
    match readConfig cfgPath with
    | .error e => .exitErr ("Error reading config file: " ++ e)
    | .ok config =>
      match config with
      | .obj _ =>
        let port := (config.get "prometheus_port").getD (Json.num 8000)
        let interval :=
          (config.get "polling_interval_seconds").getD (Json.num 60)
        let portOverride : Except Unit Json :=
          match argv[2]? with
          | some s =>
            match pyInt s with
            | some n => .ok (Json.num n)
            | none => .error ()
          | none => .ok port
        match portOverride with
        | .error _ => .exitErr "Error: Port number must be an integer."
        | .ok portFinal =>
          if purifiersInvalid config then
            .exitErr "No purifiers list found in the JSON config file"
          else
            .started portFinal interval
              (match config.get "purifiers" with
               | some (Json.arr items) => items
               | _ => [])
      | _ => .crashed "AttributeError: .get on non-dict config"

/-! Helper lemmas. -/

/-- The semantic property names, i.e. the keys of `MIOT_MAPPING`; these are
exactly the keys the gauge-setting conditionals look up. -/
def statusKeys : List String := MIOT_MAPPING.map Prod.fst

theorem setPoint_same (r : Registry) (metric label : String) (v : ℚ) :
    setPoint r metric label v metric label = some v := by
  simp [setPoint]

theorem setPoint_ne (r : Registry) (metric label m l : String) (v : ℚ)
    (h : ¬(m = metric ∧ l = label)) : setPoint r metric label v m l = r m l := by
  simp [setPoint, h]

theorem setIf_metric_ne (o : Option Value) (metric label m l : String)
    (f : Value → ℚ) (r : Registry) (h : m ≠ metric) :
    setIf o metric label f r m l = r m l := by
  cases o with
  | none => rfl
  | some v => simp [setIf, setPoint, fun hc : m = metric => h hc]

theorem setIf_label_ne (o : Option Value) (metric label m l : String)
    (f : Value → ℚ) (r : Registry) (h : l ≠ label) :
    setIf o metric label f r m l = r m l := by
  cases o with
  | none => rfl
  | some v => simp [setIf, setPoint, fun hc : l = label => h hc]

/-- A successful fetch only ever writes points labeled with the purifier
own name. -/
theorem setGauges_label_ne (st : String → Option Value) (name : String)
    (r : Registry) (m l : String) (h : l ≠ name) :
    setGauges st name r m l = r m l := by
  simp only [setGauges]
  rw [setIf_label_ne _ _ _ _ _ _ _ h, setIf_label_ne _ _ _ _ _ _ _ h,
    setIf_label_ne _ _ _ _ _ _ _ h, setIf_label_ne _ _ _ _ _ _ _ h,
    setIf_label_ne _ _ _ _ _ _ _ h, setIf_label_ne _ _ _ _ _ _ _ h,
    setIf_label_ne _ _ _ _ _ _ _ h, setIf_label_ne _ _ _ _ _ _ _ h,
    setIf_label_ne _ _ _ _ _ _ _ h, setIf_label_ne _ _ _ _ _ _ _ h,
    setIf_label_ne _ _ _ _ _ _ _ h]

/-- The gauge conditionals only read the eleven semantic keys: two status
maps that agree on `statusKeys` set the gauges identically. -/
theorem setGauges_congr (st₁ st₂ : String → Option Value) (name : String)
    (r : Registry) (h : ∀ k ∈ statusKeys, st₁ k = st₂ k) :
    setGauges st₁ name r = setGauges st₂ name r := by
  have h1 := h "power" (by decide)
  have h2 := h "mode" (by decide)
  have h3 := h "aqi" (by decide)
  have h4 := h "temperature" (by decide)
  have h5 := h "humidity" (by decide)
  have h6 := h "fault" (by decide)
  have h7 := h "fan_speed_rpm" (by decide)
  have h8 := h "filter_life_remaining" (by decide)
  have h9 := h "filter_used_time" (by decide)
  have h10 := h "filter_left_time" (by decide)
  have h11 := h "favorite_level" (by decide)
  simp only [setGauges, h1, h2, h3, h4, h5, h6, h7, h8, h9, h10, h11]

theorem find?_middle_neg {α : Type} (q : α → Bool) (x : α) (h : q x = false)
    (a b : List α) : (a ++ x :: b).find? q = (a ++ b).find? q := by
  rw [List.find?_append, List.find?_append]
  simp [List.find?_cons, h]

theorem find?_middle_pos {α : Type} (q : α → Bool) (x : α) (h : q x = true)
    (a b : List α) : (a ++ x :: b).find? q = ((a.find? q).or (some x)) := by
  rw [List.find?_append]
  simp [List.find?_cons, h]

/-- A hit that comes before a candidate deletion site makes the deleted
element irrelevant to `find?`. -/
theorem find?_drop_dup {α : Type} (q : α → Bool) (x y : α)
    (h : q x = true → q y = true) (a b c : List α) :
    (a ++ (y :: (b ++ x :: c))).find? q = (a ++ (y :: (b ++ c))).find? q := by
  rw [List.find?_append, List.find?_append]
  congr 1
  simp only [List.find?_cons]
  cases hqy : q y with
  | true => rfl
  | false =>
    cases hqx : q x with
    | true => exact absurd (h hqx) (by simp [hqy])
    | false => rw [find?_middle_neg q x hqx b c]

/-- A reading whose status code is not 0 is invisible to the status map:
removing it changes nothing, at any key. -/
theorem status_erase (l₁ l₂ : List Reading) (bad : Reading)
    (h : bad.code ≠ some 0) : status (l₁ ++ bad :: l₂) = status (l₁ ++ l₂) := by
  have hf : (bad.code == some 0) = false := by simp [h]
  unfold status
  simp [List.filter_append, List.filter_cons, hf]

/-- Removing a reading changes the status map at no key other than its own
raw identifier. -/
theorem status_agree (l₁ l₂ : List Reading) (bad : Reading) (did : String)
    (h : bad.did ≠ did) :
    status (l₁ ++ bad :: l₂) did = status (l₁ ++ l₂) did := by
  cases hc : (bad.code == some 0) with
  | false =>
    unfold status
    simp [List.filter_append, List.filter_cons, hc]
  | true =>
    unfold status
    simp only [List.filter_append, List.filter_cons, hc, cond_true, if_true,
      List.reverse_append, List.reverse_cons, List.append_assoc,
      List.singleton_append, List.cons_append, List.nil_append]
    rw [find?_middle_neg _ bad (by simp [h]) _ _]

/-- The status map returns the value of the LAST surviving reading that
carries a given raw identifier. -/
theorem status_last (l : List Reading) (r : Reading) (l₃ : List Reading)
    (hr : r.code = some 0)
    (hlast : ∀ x ∈ l₃, x.did = r.did → ¬x.code = some 0) :
    status (l ++ r :: l₃) r.did = some r.value := by
  unfold status
  have hc : (r.code == some 0) = true := by simp [hr]
  simp only [List.filter_append, List.filter_cons, hc, cond_true, if_true,
    List.reverse_append, List.reverse_cons, List.append_assoc,
    List.singleton_append, List.cons_append, List.nil_append]
  have hnone : ((l₃.filter fun prop => prop.code == some 0).reverse.find?
      fun prop => prop.did == r.did) = none := by
    rw [List.find?_eq_none]
    intro x hx
    rw [List.mem_reverse, List.mem_filter] at hx
    simp only [beq_iff_eq]
    intro hdid
    exact hlast x hx.1 hdid (by simpa using hx.2)
  rw [find?_middle_pos _ r (by simp) _ _, hnone]
  rfl

/-- An earlier surviving reading is irrelevant to the status map when a
later surviving reading carries the same raw identifier. -/
theorem status_dup (l₁ l₂ l₃ : List Reading) (r₁ r₂ : Reading)
    (h₁ : r₁.code = some 0) (h₂ : r₂.code = some 0) (hdid : r₁.did = r₂.did) :
    status (l₁ ++ r₁ :: (l₂ ++ r₂ :: l₃)) = status (l₁ ++ (l₂ ++ r₂ :: l₃)) := by
  funext did
  unfold status
  have hc₁ : (r₁.code == some 0) = true := by simp [h₁]
  have hc₂ : (r₂.code == some 0) = true := by simp [h₂]
  simp only [List.filter_append, List.filter_cons, hc₁, hc₂, cond_true, if_true,
    List.reverse_append, List.reverse_cons, List.append_assoc,
    List.singleton_append, List.cons_append, List.nil_append]
  rw [find?_drop_dup _ r₁ r₂ (fun hq => by rw [← hdid]; exact hq) _ _ _]

theorem processDevice_skip (p : Purifier)
    (f : Except PyError (List Reading)) (r : Registry)
    (h : p.hasObject = false) : processDevice p f r = (r, []) := by
  simp [processDevice, h]

theorem processDevice_ok (p : Purifier) (properties : List Reading)
    (r : Registry) (h : p.hasObject = true) :
    processDevice p (.ok properties) r
      = (setGauges (status properties) p.name r, []) := by
  simp [processDevice, h]

theorem processDevice_error (p : Purifier) (e : PyError) (r : Registry)
    (h : p.hasObject = true) :
    processDevice p (.error e) r = (r, [errorLog p.name e]) := by
  simp [processDevice, h]

/-- A device whose fetch raises never changes the registry, whether or not
it was even polled. -/
theorem processDevice_error_fst (p : Purifier) (e : PyError) (r : Registry) :
    (processDevice p (.error e) r).1 = r := by
  cases hp : p.hasObject <;> simp [processDevice, hp]

/-- Frame: processing a device never touches a point labeled with a
different device name. -/
theorem processDevice_frame (p : Purifier)
    (f : Except PyError (List Reading)) (r : Registry) (m l : String)
    (h : l ≠ p.name) : (processDevice p f r).1 m l = r m l := by
  cases hp : p.hasObject with
  | false => simp [processDevice, hp]
  | true =>
    cases f with
    | error e => simp [processDevice, hp]
    | ok properties =>
      simp [processDevice, hp, setGauges_label_ne _ _ _ _ _ h]

/-- A cycle over a concatenated device list is the two cycles run in
sequence, with the logs concatenated. -/
theorem runCycle_append (a b : List (Purifier × Except PyError (List Reading)))
    (reg : Registry) :
    runCycle (a ++ b) reg
      = ((runCycle b (runCycle a reg).1).1,
         (runCycle a reg).2 ++ (runCycle b (runCycle a reg).1).2) := by
  induction a generalizing reg with
  | nil => simp [runCycle]
  | cons hd tl ih =>
    obtain ⟨p, f⟩ := hd
    simp [runCycle, ih]

/-- Frame for a whole cycle: if every step preserves the point `(m, l)`,
the cycle does. -/
theorem runCycle_frame (ps : List (Purifier × Except PyError (List Reading)))
    (reg : Registry) (m l : String)
    (h : ∀ q ∈ ps, ∀ r : Registry, (processDevice q.1 q.2 r).1 m l = r m l) :
    (runCycle ps reg).1 m l = reg m l := by
  induction ps generalizing reg with
  | nil => rfl
  | cons hd tl ih =>
    obtain ⟨p, f⟩ := hd
    show (runCycle ((p, f) :: tl) reg).1 m l = reg m l
    simp only [runCycle]
    rw [ih _ fun q hq => h q (List.mem_cons_of_mem _ hq)]
    exact h (p, f) (List.mem_cons_self _ _) reg

/-- The gauge the power conditional writes, read back at the same label. -/
theorem setGauges_power_eq (st : String → Option Value) (name : String)
    (r : Registry) (v : Value) (hp : st "power" = some v) :
    setGauges st name r "mi_purifier_power" name
      = some (if truthy v then 1 else 0) := by
  have n2 : ("mi_purifier_power" : String) ≠ "mi_purifier_mode" := by decide
  have n3 : ("mi_purifier_power" : String) ≠ "mi_purifier_aqi" := by decide
  have n4 : ("mi_purifier_power" : String) ≠ "mi_purifier_temp" := by decide
  have n5 : ("mi_purifier_power" : String) ≠ "mi_purifier_humidity" := by
    decide
  have n6 : ("mi_purifier_power" : String) ≠ "mi_purifier_fault" := by decide
  have n7 : ("mi_purifier_power" : String) ≠ "mi_purifier_fan_speed_rpm" := by
    decide
  have n8 : ("mi_purifier_power" : String)
      ≠ "mi_purifier_filter_life_remaining_percent" := by decide
  have n9 : ("mi_purifier_power" : String)
      ≠ "mi_purifier_filter_used_time" := by decide
  have n10 : ("mi_purifier_power" : String)
      ≠ "mi_purifier_filter_left_time" := by decide
  have n11 : ("mi_purifier_power" : String)
      ≠ "mi_purifier_favorite_level" := by decide
  simp only [setGauges]
  rw [setIf_metric_ne _ _ _ _ _ _ _ n11, setIf_metric_ne _ _ _ _ _ _ _ n10,
    setIf_metric_ne _ _ _ _ _ _ _ n9, setIf_metric_ne _ _ _ _ _ _ _ n8,
    setIf_metric_ne _ _ _ _ _ _ _ n7, setIf_metric_ne _ _ _ _ _ _ _ n6,
    setIf_metric_ne _ _ _ _ _ _ _ n5, setIf_metric_ne _ _ _ _ _ _ _ n4,
    setIf_metric_ne _ _ _ _ _ _ _ n3, setIf_metric_ne _ _ _ _ _ _ _ n2, hp]
  simp [setIf, setPoint]

/-- The registry every process run starts from: no point set yet. -/
def emptyReg : Registry := fun _ _ => none

/-! Claims. -/

/-- C1: for every device in the configured list and every poll cycle, any
failure raised while fetching or processing the properties of that device
(the `DeviceException` covering unreachable device, protocol error and
malformed response, or the `OSError` covering OS-level transport failures)
is caught inside the cycle, logged with the logical name of the device, and
never propagates out of the cycle: the cycle over the full list equals the
cycle over the devices before the failure followed by the cycle over the
devices after it, with exactly one log line inserted, so the Runner always
continues to the next device and reaches the end-of-cycle sleep. -/
theorem c1_cycle_isolates_failures
    (ps₁ ps₂ : List (Purifier × Except PyError (List Reading)))
    (p : Purifier) (e : PyError) (reg : Registry) (h : p.hasObject = true) :
    runCycle (ps₁ ++ (p, Except.error e) :: ps₂) reg
      = ((runCycle ps₂ (runCycle ps₁ reg).1).1,
         (runCycle ps₁ reg).2
           ++ errorLog p.name e :: (runCycle ps₂ (runCycle ps₁ reg).1).2)
  ∧ (errorLog p.name e).deviceName = p.name := by
  constructor
  · rw [runCycle_append]
    simp [runCycle, processDevice_error _ _ _ h]
  · cases e <;> rfl

/-- Witness for C1 at a concrete cycle: one healthy device, then a device
whose fetch raises, then another healthy device. -/
theorem c1_witness :
    runCycle [((⟨"a", true⟩ : Purifier), Except.ok []),
        (⟨"dev", true⟩, Except.error (PyError.deviceException "boom")),
        (⟨"b", true⟩, Except.ok [])] emptyReg
      = ((runCycle [((⟨"b", true⟩ : Purifier), Except.ok [])]
            (runCycle [((⟨"a", true⟩ : Purifier), Except.ok [])] emptyReg).1).1,
         (runCycle [((⟨"a", true⟩ : Purifier), Except.ok [])] emptyReg).2
           ++ errorLog "dev" (PyError.deviceException "boom")
             :: (runCycle [((⟨"b", true⟩ : Purifier), Except.ok [])]
                  (runCycle [((⟨"a", true⟩ : Purifier), Except.ok [])]
                    emptyReg).1).2)
  ∧ (errorLog "dev" (PyError.deviceException "boom")).deviceName = "dev" :=
  c1_cycle_isolates_failures
    [(⟨"a", true⟩, Except.ok [])] [(⟨"b", true⟩, Except.ok [])]
    ⟨"dev", true⟩ (PyError.deviceException "boom") emptyReg rfl

/-- C2: when the fetch of device D raises during a cycle, every Metric
Registry point labeled with the logical name of D is exactly what it was
after the previous cycle (registry `reg`): nothing is cleared, zeroed,
removed or overwritten for D, provided no other configured device shares
the name of D. -/
theorem c2_failing_device_points_stale
    (ps₁ ps₂ : List (Purifier × Except PyError (List Reading)))
    (p : Purifier) (e : PyError) (reg : Registry)
    (hnames : ∀ q ∈ ps₁ ++ ps₂, q.1.name ≠ p.name) :
    ∀ m, (runCycle (ps₁ ++ (p, Except.error e) :: ps₂) reg).1 m p.name
      = reg m p.name := by
  intro m
  apply runCycle_frame
  intro q hq r
  rcases List.mem_append.mp hq with hq₁ | hq₂
  · exact processDevice_frame _ _ _ _ _
      (fun hc => hnames q (List.mem_append_left _ hq₁) hc.symm)
  · rcases List.mem_cons.mp hq₂ with rfl | hq₃
    · rw [processDevice_error_fst]
    · exact processDevice_frame _ _ _ _ _
        (fun hc => hnames q (List.mem_append_right _ hq₃) hc.symm)

/-- Witness for C2: a healthy sibling device updates its own gauges while
the failing device keeps its (here: absent) points untouched. -/
theorem c2_witness :
    (runCycle [((⟨"other", true⟩ : Purifier),
        Except.ok [⟨"aqi", some 0, Value.vint 12⟩]),
        (⟨"dev", true⟩, Except.error (PyError.osError "unreachable"))]
      emptyReg).1 "mi_purifier_aqi" "dev" = emptyReg "mi_purifier_aqi" "dev" :=
  c2_failing_device_points_stale
    [(⟨"other", true⟩, Except.ok [⟨"aqi", some 0, Value.vint 12⟩])] []
    ⟨"dev", true⟩ (PyError.osError "unreachable") emptyReg
    (by intro q hq; fin_cases hq; decide) "mi_purifier_aqi"

/-- C3: a raw property reading whose status code is non-zero is discarded
by the status comprehension: processing a successful fetch with such a
reading present sets exactly the same gauges, to the same values, as the
same fetch without it — no gauge is ever set from it, regardless of its
identifier or value. -/
theorem c3_error_status_discarded (p : Purifier) (reg : Registry)
    (l₁ l₂ : List Reading) (bad : Reading) (c : Int)
    (hc : bad.code = some c) (hne : c ≠ 0) :
    processDevice p (Except.ok (l₁ ++ bad :: l₂)) reg
      = processDevice p (Except.ok (l₁ ++ l₂)) reg := by
  have h : bad.code ≠ some 0 := by rw [hc]; simp [hne]
  have hs := status_erase l₁ l₂ bad h
  cases hp : p.hasObject with
  | false => simp [processDevice, hp]
  | true => simp [processDevice, hp, hs]

/-- Witness for C3: an aqi reading with error status -9999 changes
nothing. -/
theorem c3_witness :
    processDevice ⟨"dev", true⟩
        (Except.ok [⟨"aqi", some (-9999), Value.vint 50⟩]) emptyReg
      = processDevice ⟨"dev", true⟩ (Except.ok []) emptyReg :=
  c3_error_status_discarded ⟨"dev", true⟩ emptyReg [] []
    ⟨"aqi", some (-9999), Value.vint 50⟩ (-9999) rfl (by decide)

/-- C4: a raw property reading whose identifier is not one of the eleven
keys of `MIOT_MAPPING` is discarded: processing a successful fetch with
such a reading present sets exactly the same gauges as without it, in any
cycle. -/
theorem c4_unknown_id_discarded (p : Purifier) (reg : Registry)
    (l₁ l₂ : List Reading) (bad : Reading)
    (h : bad.did ∉ MIOT_MAPPING.map Prod.fst) :
    processDevice p (Except.ok (l₁ ++ bad :: l₂)) reg
      = processDevice p (Except.ok (l₁ ++ l₂)) reg := by
  cases hp : p.hasObject with
  | false => simp [processDevice, hp]
  | true =>
    have hcongr : ∀ k ∈ statusKeys,
        status (l₁ ++ bad :: l₂) k = status (l₁ ++ l₂) k := by
      intro k hk
      apply status_agree
      intro hbd
      unfold statusKeys at hk
      exact h (hbd ▸ hk)
    simp [processDevice, hp, setGauges_congr _ _ _ _ hcongr]

/-- Witness for C4: a reading with unknown identifier and ok status changes
nothing. -/
theorem c4_witness :
    processDevice ⟨"dev", true⟩
        (Except.ok [⟨"bogus", some 0, Value.vint 1⟩]) emptyReg
      = processDevice ⟨"dev", true⟩ (Except.ok []) emptyReg :=
  c4_unknown_id_discarded ⟨"dev", true⟩ emptyReg [] []
    ⟨"bogus", some 0, Value.vint 1⟩ (by decide)

/-- C5: whenever a power reading survives the status comprehension, the
value written to the power gauge of that device is exactly 1 when the raw
value is truthy and exactly 0 when it is falsy — for every possible raw
value of the power property. -/
theorem c5_power_normalized (p : Purifier) (reg : Registry)
    (props : List Reading) (v : Value) (h : p.hasObject = true)
    (hp : status props "power" = some v) :
    (truthy v = true →
      (processDevice p (Except.ok props) reg).1 "mi_purifier_power" p.name
        = some 1)
  ∧ (truthy v = false →
      (processDevice p (Except.ok props) reg).1 "mi_purifier_power" p.name
        = some 0) := by
  rw [processDevice_ok _ _ _ h]
  constructor <;> intro ht <;>
    simp [setGauges_power_eq (status props) p.name reg v hp, ht]

/-- Witness for C5: a truthy integer power value 5 is published as 1. -/
theorem c5_witness :
    truthy (Value.vint 5) = true
  ∧ (processDevice ⟨"dev", true⟩
        (Except.ok [⟨"power", some 0, Value.vint 5⟩]) emptyReg).1
      "mi_purifier_power" "dev" = some 1 :=
  ⟨rfl,
    (c5_power_normalized ⟨"dev", true⟩ emptyReg
      [⟨"power", some 0, Value.vint 5⟩] (Value.vint 5) rfl rfl).1 rfl⟩

/-- C6: a device whose connection handle is absent is never fetched — the
outcome of its processing step does not depend on what a fetch would have
returned, it produces no log line and no registry write — and a cycle over
a list containing it equals the cycle over the list without it, so every
remaining device is still processed. -/
theorem c6_absent_handle_noop (p : Purifier) (h : p.hasObject = false) :
    (∀ (f : Except PyError (List Reading)) (reg : Registry),
      processDevice p f reg = (reg, []))
  ∧ (∀ (ps₁ ps₂ : List (Purifier × Except PyError (List Reading)))
      (f : Except PyError (List Reading)) (reg : Registry),
      runCycle (ps₁ ++ (p, f) :: ps₂) reg = runCycle (ps₁ ++ ps₂) reg) := by
  constructor
  · intro f reg
    exact processDevice_skip p f reg h
  · intro ps₁ ps₂ f reg
    rw [runCycle_append, runCycle_append]
    simp [runCycle, processDevice_skip _ _ _ h]

/-- Witness for C6: a dead device is a silent no-op and the cycle over the
rest is unchanged. -/
theorem c6_witness :
    processDevice ⟨"dead", false⟩ (Except.error (PyError.osError "x")) emptyReg
      = (emptyReg, [])
  ∧ runCycle [((⟨"dead", false⟩ : Purifier), Except.ok []),
        (⟨"live", true⟩, Except.ok [⟨"aqi", some 0, Value.vint 7⟩])] emptyReg
      = runCycle [((⟨"live", true⟩ : Purifier),
          Except.ok [⟨"aqi", some 0, Value.vint 7⟩])] emptyReg :=
  ⟨(c6_absent_handle_noop ⟨"dead", false⟩ rfl).1 _ _,
   (c6_absent_handle_noop ⟨"dead", false⟩ rfl).2 []
     [(⟨"live", true⟩, Except.ok [⟨"aqi", some 0, Value.vint 7⟩])]
     (Except.ok []) emptyReg⟩

/-- C7: a successful fetch for device D updates only Metric Points labeled
with the logical name of D: any point whose label differs from that name is
unchanged by the processing of D. -/
theorem c7_only_own_label (p : Purifier) (props : List Reading)
    (reg : Registry) (m l : String) (h : p.hasObject = true)
    (hl : l ≠ p.name) :
    (processDevice p (Except.ok props) reg).1 m l = reg m l := by
  rw [processDevice_ok _ _ _ h]
  exact setGauges_label_ne _ _ _ _ _ hl

/-- Witness for C7: an aqi update for one device leaves the same metric of
another device untouched. -/
theorem c7_witness :
    (processDevice ⟨"dev", true⟩
        (Except.ok [⟨"aqi", some 0, Value.vint 12⟩]) emptyReg).1
      "mi_purifier_aqi" "other" = emptyReg "mi_purifier_aqi" "other" :=
  c7_only_own_label ⟨"dev", true⟩ [⟨"aqi", some 0, Value.vint 12⟩]
    emptyReg "mi_purifier_aqi" "other" rfl (by decide)

/-- C8: every startup-fatal condition — missing config-file argument,
missing or malformed configuration file (the load raises), purifiers key
absent or not a non-empty list, or non-integer second CLI argument — makes
the process print a diagnostic to standard error and exit with status 1
(`StartupResult.exitErr`) before any polling begins. -/
theorem c8_startup_fatal (argv : List String)
    (rc : String → Except String Json) :
    (argv[1]? = none → ∃ msg, startup argv rc = .exitErr msg)
  ∧ (∀ path e, argv[1]? = some path → rc path = .error e →
      ∃ msg, startup argv rc = .exitErr msg)
  ∧ (∀ path fields s, argv[1]? = some path →
      rc path = .ok (.obj fields) → argv[2]? = some s → pyInt s = none →
      ∃ msg, startup argv rc = .exitErr msg)
  ∧ (∀ path fields, argv[1]? = some path → rc path = .ok (.obj fields) →
      purifiersInvalid (.obj fields) = true →
      ∃ msg, startup argv rc = .exitErr msg) := by
  refine ⟨?_, ?_, ?_, ?_⟩
  · intro h
    exact ⟨"JSON config file must be passed as the first argument",
      by simp [startup, h]⟩
  · intro path e h1 hrc
    exact ⟨"Error reading config file: " ++ e, by simp [startup, h1, hrc]⟩
  · intro path fields s h1 hrc h2 hint
    exact ⟨"Error: Port number must be an integer.",
      by simp [startup, h1, hrc, h2, hint]⟩
  · intro path fields h1 hrc hpur
    cases h2 : argv[2]? with
    | none =>
      exact ⟨"No purifiers list found in the JSON config file",
        by simp [startup, h1, hrc, h2, hpur]⟩
    | some s =>
      cases hint : pyInt s with
      | none =>
        exact ⟨"Error: Port number must be an integer.",
          by simp [startup, h1, hrc, h2, hint]⟩
      | some n =>
        exact ⟨"No purifiers list found in the JSON config file",
          by simp [startup, h1, hrc, h2, hint, hpur]⟩

/-- Witness for C8: the four fatal scenarios at concrete inputs — no
argument, unreadable config, non-integer port override, and a config
without a purifiers list. -/
theorem c8_witness :
    (∃ msg, startup ["prog"] (fun _ => Except.error "missing") = .exitErr msg)
  ∧ (∃ msg, startup ["prog", "cfg"] (fun _ => Except.error "bad json")
      = .exitErr msg)
  ∧ (∃ msg, startup ["prog", "cfg", "abc"]
      (fun _ => Except.ok (Json.obj [("purifiers", Json.arr [Json.null])]))
      = .exitErr msg)
  ∧ (∃ msg, startup ["prog", "cfg"] (fun _ => Except.ok (Json.obj []))
      = .exitErr msg) :=
  ⟨(c8_startup_fatal ["prog"] _).1 rfl,
   (c8_startup_fatal ["prog", "cfg"] _).2.1 "cfg" "bad json" rfl rfl,
   (c8_startup_fatal ["prog", "cfg", "abc"] _).2.2.1 "cfg"
     [("purifiers", Json.arr [Json.null])] "abc" rfl rfl rfl (by decide),
   (c8_startup_fatal ["prog", "cfg"] _).2.2.2 "cfg" [] rfl rfl (by decide)⟩

/-- C9: a raw property reading that carries no status-code field at all is
discarded exactly like an error-status reading — removing it changes no
gauge — and every value the status comprehension publishes comes from a
reading whose status code is present and equal to 0. -/
theorem c9_missing_code_discarded (p : Purifier) (reg : Registry)
    (l₁ l₂ : List Reading) (bad : Reading) (h : bad.code = none) :
    (processDevice p (Except.ok (l₁ ++ bad :: l₂)) reg
      = processDevice p (Except.ok (l₁ ++ l₂)) reg)
  ∧ ∀ (props : List Reading) (did : String) (v : Value),
      status props did = some v →
      ∃ x, x ∈ props ∧ x.code = some 0 ∧ x.did = did ∧ x.value = v := by
  constructor
  · have hs := status_erase l₁ l₂ bad (by rw [h]; exact fun hc => nomatch hc)
    cases hp : p.hasObject with
    | false => simp [processDevice, hp]
    | true => simp [processDevice, hp, hs]
  · intro props did v hv
    unfold status at hv
    obtain ⟨x, hfind, hval⟩ := Option.map_eq_some'.mp hv
    have hmem := List.mem_of_find?_eq_some hfind
    have hq := List.find?_some hfind
    rw [List.mem_reverse, List.mem_filter] at hmem
    exact ⟨x, hmem.1, by simpa using hmem.2, by simpa using hq, hval⟩

/-- Witness for C9: a reading with no code field changes nothing, and the
published aqi value traces back to a code-0 reading. -/
theorem c9_witness :
    (processDevice ⟨"dev", true⟩
        (Except.ok [⟨"aqi", none, Value.vint 99⟩]) emptyReg
      = processDevice ⟨"dev", true⟩ (Except.ok []) emptyReg)
  ∧ ∃ x, x ∈ [(⟨"aqi", some 0, Value.vint 12⟩ : Reading)]
      ∧ x.code = some 0 ∧ x.did = "aqi" ∧ x.value = Value.vint 12 :=
  ⟨(c9_missing_code_discarded ⟨"dev", true⟩ emptyReg [] []
      ⟨"aqi", none, Value.vint 99⟩ rfl).1,
   (c9_missing_code_discarded ⟨"dev", true⟩ emptyReg [] []
      ⟨"aqi", none, Value.vint 99⟩ rfl).2
     [⟨"aqi", some 0, Value.vint 12⟩] "aqi" (Value.vint 12) rfl⟩

/-- C10: within one successful fetch, when several surviving readings share
a raw identifier, last write wins: an earlier surviving duplicate has no
effect at all on the processing outcome, and when a surviving reading is
the last of its identifier in the returned list, the status comprehension
publishes exactly its value. -/
theorem c10_last_write_wins (p : Purifier) (reg : Registry)
    (l₁ l₂ l₃ : List Reading) (r₁ r₂ : Reading) (h₁ : r₁.code = some 0)
    (h₂ : r₂.code = some 0) (hdid : r₁.did = r₂.did) :
    (processDevice p (Except.ok (l₁ ++ r₁ :: (l₂ ++ r₂ :: l₃))) reg
      = processDevice p (Except.ok (l₁ ++ (l₂ ++ r₂ :: l₃))) reg)
  ∧ ((∀ x ∈ l₃, x.did = r₂.did → ¬x.code = some 0) →
      status (l₁ ++ r₁ :: (l₂ ++ r₂ :: l₃)) r₂.did = some r₂.value) := by
  constructor
  · have hs := status_dup l₁ l₂ l₃ r₁ r₂ h₁ h₂ hdid
    cases hp : p.hasObject with
    | false => simp [processDevice, hp]
    | true => simp [processDevice, hp, hs]
  · intro hlast
    have := status_last (l₁ ++ r₁ :: l₂) r₂ l₃ h₂ hlast
    simpa [List.append_assoc] using this

/-- Witness for C10: two surviving aqi readings; the later one (value 2)
is what gets published, and dropping the earlier one changes nothing. -/
theorem c10_witness :
    (processDevice ⟨"dev", true⟩
        (Except.ok [⟨"aqi", some 0, Value.vint 1⟩,
          ⟨"aqi", some 0, Value.vint 2⟩]) emptyReg
      = processDevice ⟨"dev", true⟩
          (Except.ok [⟨"aqi", some 0, Value.vint 2⟩]) emptyReg)
  ∧ status [⟨"aqi", some 0, Value.vint 1⟩, ⟨"aqi", some 0, Value.vint 2⟩]
      "aqi" = some (Value.vint 2) :=
  ⟨(c10_last_write_wins ⟨"dev", true⟩ emptyReg [] [] []
      ⟨"aqi", some 0, Value.vint 1⟩ ⟨"aqi", some 0, Value.vint 2⟩
      rfl rfl rfl).1,
   (c10_last_write_wins ⟨"dev", true⟩ emptyReg [] [] []
      ⟨"aqi", some 0, Value.vint 1⟩ ⟨"aqi", some 0, Value.vint 2⟩
      rfl rfl rfl).2 (by intro x hx; simp at hx)⟩

end MiioExporter
